import Mathlib

/-!
Shallow embedding of the PrathamStrictBot scheduling engine
(final revision of src/index.js) and verification of its
natural-language specification.

Dates are modelled as integer day keys (the JS code uses "YYYY-MM-DD"
strings whose lexicographic order matches chronological order, and
`getDatePlusDays` shifts a key by whole days, which is `+` here).
A UTC instant is modelled as integer minutes since the epoch.
-/

namespace StrictBot

/-! ### String primitives (models of the JS string operations used) -/

/-- Model of JS `String.prototype.toLowerCase` (ASCII-adequate). -/
def lowerStr (s : String) : String := String.mk (s.data.map Char.toLower)

/-- Model of JS `String.prototype.length` for the ASCII task texts. -/
def strLen (s : String) : Nat := s.data.length

/-- Helper for `splitWords`: accumulates the current word (reversed). -/
def splitSpaceAux : List Char → List Char → List String
  | [], acc => [String.mk acc.reverse]
  | c :: rest, acc =>
    if c = ' ' then String.mk acc.reverse :: splitSpaceAux rest []
    else splitSpaceAux rest (c :: acc)

/-- Model of JS `text.split(" ")`: split on every single space character,
keeping empty pieces, and `"".split(" ") = [""]`. -/
def splitWords (s : String) : List String := splitSpaceAux s.data []

/-- `isPre pat l` holds when `pat` is a leading segment of `l`. -/
def isPre : List Char → List Char → Bool
  | [], _ => true
  | _ :: _, [] => false
  | p :: ps, c :: cs => p == c && isPre ps cs

/-- `hasSub pat l`: `pat` occurs contiguously somewhere inside `l`. -/
def hasSub (pat : List Char) : List Char → Bool
  | [] => pat.isEmpty
  | c :: cs => isPre pat (c :: cs) || hasSub pat cs

/-- Model of JS `s.includes(pat)` (substring containment). -/
def strIncludes (s pat : String) : Bool := hasSub pat.data s.data

/-! ### Quota Ledger (src/index.js `reserveAIQuota` / `rollbackAIQuota`) -/

/-- The per-user AI-quota columns `ai_calls_today` and `ai_reset_date`
of the `users` table; the date is `Option` because the column is nullable
(`IS DISTINCT FROM` in the SQL treats NULL as distinct from any date). -/
structure QuotaState where
  aiCallsToday : Int
  aiResetDate : Option Int
deriving Repr, DecidableEq

/-- `const AI_DAILY_LIMIT = 20` (src/index.js). -/
def AI_DAILY_LIMIT : Int := 20

/-- Embedding of `reserveAIQuota`: the single conditional UPDATE
`SET ai_calls_today = CASE WHEN ai_reset_date IS DISTINCT FROM $1 THEN 1
ELSE ai_calls_today + 1 END, ai_reset_date = $1
WHERE ... AND (ai_reset_date IS DISTINCT FROM $1 OR ai_calls_today < $3)`.
Returns whether a row was updated (`rowCount > 0`) and the new state. -/
def reserveAIQuota (today limit : Int) (q : QuotaState) : Bool × QuotaState :=
  if q.aiResetDate ≠ some today ∨ q.aiCallsToday < limit then
    (true,
      { aiCallsToday := if q.aiResetDate ≠ some today then 1 else q.aiCallsToday + 1,
        aiResetDate := some today })
  else (false, q)

/-- Embedding of `rollbackAIQuota`:
`SET ai_calls_today = GREATEST(0, ai_calls_today - 1)`. -/
def rollbackAIQuota (q : QuotaState) : QuotaState :=
  { q with aiCallsToday := max 0 (q.aiCallsToday - 1) }

/-- Sequential composition of `n` Reserve calls (each Reserve is a single
atomic conditional UPDATE, so any interleaving of concurrent calls is
serialized by the store into some such sequence); returns the list of
per-call outcomes and the final state. -/
def runReserves (today limit : Int) : Nat → QuotaState → List Bool × QuotaState
  | 0, q => ([], q)
  | n + 1, q =>
    let r := reserveAIQuota today limit q
    let rest := runReserves today limit n r.2
    (r.1 :: rest.1, rest.2)

/-- Number of successful outcomes in a list of Reserve results. -/
def countTrue (l : List Bool) : Nat := (l.filter (fun b => b)).length

/-- Number of failed outcomes in a list of Reserve results. -/
def countFalse (l : List Bool) : Nat := (l.filter (fun b => !b)).length

/-! ### Local-Time Resolver (src/index.js date helpers) -/

/-- `getUserDate(timezoneOffset)`: the user's local calendar day key for
the UTC instant `utcMin` (minutes since epoch). -/
def getUserDate (utcMin offset : Int) : Int := (utcMin + offset).ediv 1440

/-- `getUserMinutes(timezoneOffset)`: the user's local minutes-since-midnight. -/
def getUserMinutes (utcMin offset : Int) : Int := (utcMin + offset).emod 1440

/-- `getDatePlusDays(baseDate, days)`. -/
def getDatePlusDays (d days : Int) : Int := d + days

/-- `getUserTomorrowDate(timezoneOffset)`. -/
def getUserTomorrowDate (utcMin offset : Int) : Int :=
  getDatePlusDays (getUserDate utcMin offset) 1

/-- `getActiveDate(timezoneOffset)`: from 18:00 local onwards the active
date is tomorrow (`true` label), otherwise today (`false` label). -/
def getActiveDate (utcMin offset : Int) : Int × Bool :=
  if getUserMinutes utcMin offset ≥ 18 * 60 then
    (getUserTomorrowDate utcMin offset, true)
  else (getUserDate utcMin offset, false)

/-! ### Task rows (the `tasks` table) -/

/-- One row of the `tasks` table, restricted to one user; `taskTimeMin`
is the scheduled `task_time` as minutes-of-day (HOUR*60 + MINUTE, as the
sweep SQL extracts it). -/
structure Task where
  taskDate : Int
  taskTimeMin : Int
  taskName : String
  reminderSent : Bool
  userResponse : Option String
  respondedAt : Option Int
  praised : Bool
  scolded : Bool
deriving Repr, DecidableEq

/-- A freshly inserted task row (all lifecycle columns at their defaults). -/
def freshTask (d tm : Int) (nm : String) : Task :=
  { taskDate := d, taskTimeMin := tm, taskName := nm,
    reminderSent := false, userResponse := none, respondedAt := none,
    praised := false, scolded := false }

/-! ### Feedback classifier (src/index.js `/cron/angry-check`, lines 743-745) -/

/-- `row.task_name.toLowerCase().split(" ").filter(w => w.length > 2)`. -/
def taskContentWords (name : String) : List String :=
  (splitWords (lowerStr name)).filter (fun w => 2 < strLen w)

/-- `taskWords.some(w => response.includes(w))` where `response` is the
lowercased user response. -/
def isDoingTask (name response : String) : Bool :=
  (taskContentWords name).any (fun w => strIncludes (lowerStr response) w)

/-- JS truthiness of `row.user_response`: NULL and the empty string are
falsy, any other string is truthy. -/
def responseTruthy : Option String → Bool
  | none => false
  | some r => !(r == "")

/-! ### Feedback Sweep per-task evaluation (`/cron/angry-check` body) -/

/-- Which outbound message, if any, the evaluation of one task sends. -/
inductive FbMsg where
  | praiseText
  | angryText
deriving Repr, DecidableEq

/-- Result of evaluating one selected task in the angry-check sweep. -/
structure FbResult where
  task : Task
  quota : QuotaState
  sent : Option FbMsg
  aiTextGenerated : Bool
deriving Repr, DecidableEq

/-- Selection predicate of the angry-check sweep (final revision):
same user/date, not yet praised or scolded, reminder already sent, and
scheduled minutes-of-day `BETWEEN userMinutes - 25 AND userMinutes - 3`. -/
def angryCheckSelects (today nowMin : Int) (t : Task) : Bool :=
  decide (t.taskDate = today) && !t.praised && !t.scolded && t.reminderSent
    && decide (nowMin - 25 ≤ t.taskTimeMin) && decide (t.taskTimeMin ≤ nowMin - 3)

/-- Evaluation of one selected task: reserve quota (silent scold on
failure), otherwise generate and send praise/scold text (`genOk` says
whether the external generate-and-send succeeds), rolling the quota back
and still scolding when it fails. -/
def evalFeedbackTask (genOk : Bool) (today : Int) (q : QuotaState) (t : Task) : FbResult :=
  let doing := isDoingTask t.taskName (t.userResponse.getD "")
  let r := reserveAIQuota today AI_DAILY_LIMIT q
  if !r.1 then
    { task := { t with scolded := true }, quota := r.2, sent := none, aiTextGenerated := false }
  else if genOk then
    if responseTruthy t.userResponse && doing then
      { task := { t with praised := true }, quota := r.2,
        sent := some FbMsg.praiseText, aiTextGenerated := true }
    else
      { task := { t with scolded := true }, quota := r.2,
        sent := some FbMsg.angryText, aiTextGenerated := true }
  else
    { task := { t with scolded := true }, quota := rollbackAIQuota r.2,
      sent := none, aiTextGenerated := false }

/-! ### Reminder Sweep (`/cron/task-reminders`, final revision) -/

/-- Selection predicate of the reminder sweep: same date, reminder not
yet sent, scheduled minutes-of-day `BETWEEN userMinutes - 2 AND
userMinutes + 3`. -/
def reminderSelects (today nowMin : Int) (t : Task) : Bool :=
  decide (t.taskDate = today) && !t.reminderSent
    && decide (nowMin - 2 ≤ t.taskTimeMin) && decide (t.taskTimeMin ≤ nowMin + 3)

/-- The claim-and-return UPDATE of the reminder sweep: marks every
selected row `reminder_sent = true` and returns exactly the rows it
changed. -/
def taskRemindersSweep (today nowMin : Int) (ts : List Task) : List Task × List Task :=
  (ts.map (fun t => if reminderSelects today nowMin t then { t with reminderSent := true } else t),
   (ts.filter (reminderSelects today nowMin)).map (fun t => { t with reminderSent := true }))

/-! ### Daily reset (`/cron/daily-reset`) -/

/-- The SET clause of the reset UPDATE: lifecycle flags back to false,
response text and timestamp cleared. -/
def resetTaskFields (t : Task) : Task :=
  { t with reminderSent := false, praised := false, scolded := false,
           userResponse := none, respondedAt := none }

/-- The per-user reset UPDATE: applies `resetTaskFields` to every task
whose date is strictly before the user's current local date; no row is
inserted or deleted. -/
def dailyResetSweep (today : Int) (ts : List Task) : List Task :=
  ts.map (fun t => if decide (t.taskDate < today) then resetTaskFields t else t)

/-! ### Daily Aggregator (`/cron/daily-summary`) -/

/-- One row of the `user_stats` table. -/
structure StatsRow where
  currentStreak : Int
  longestStreak : Int
  lastSuccessDate : Option Int
  lastSummaryDate : Option Int
deriving Repr, DecidableEq

/-- The per-user state the daily-summary handler reads and writes:
the user's task rows, the optional `user_stats` row, the quota columns,
and a count of outbound messages. -/
structure SummaryUserState where
  tasks : List Task
  stats : Option StatsRow
  quota : QuotaState
  messagesSent : Nat
deriving Repr, DecidableEq

/-- `isSuccessfulDay(planned, completed)`: false when nothing was
planned, otherwise `completed / planned >= 0.7` (exact rational model of
the JS numeric comparison). -/
def isSuccessfulDay (planned completed : Nat) : Bool :=
  if planned = 0 then false
  else decide ((completed : ℚ) / (planned : ℚ) ≥ 7 / 10)

/-- One user's pass of the daily-summary handler. `genOk` says whether
the external summary-text generation succeeds. Mirrors the code order:
count planned/completed for today, skip when nothing planned, read stats
(defaults when no row), skip when `last_summary_date` already equals
today, compute success and the streak upsert, then reserve quota and
send exactly one message (plain on quota failure, rolled back and plain
on generation failure). -/
def dailySummaryStep (genOk : Bool) (today : Int) (u : SummaryUserState) : SummaryUserState :=
  let planned := (u.tasks.filter (fun t => decide (t.taskDate = today))).length
  let completed := (u.tasks.filter (fun t => decide (t.taskDate = today) && t.praised)).length
  if planned = 0 then u
  else
    let s := u.stats.getD { currentStreak := 0, longestStreak := 0,
                            lastSuccessDate := none, lastSummaryDate := none }
    if s.lastSummaryDate = some today then u
    else
      let success := isSuccessfulDay planned completed
      let yesterday := getDatePlusDays today (-1)
      let newStats : StatsRow :=
        if success then
          let cur := if s.lastSuccessDate = some yesterday then s.currentStreak + 1 else 1
          { currentStreak := cur, longestStreak := max s.longestStreak cur,
            lastSuccessDate := some today, lastSummaryDate := some today }
        else
          { currentStreak := 0, longestStreak := s.longestStreak,
            lastSuccessDate := s.lastSuccessDate, lastSummaryDate := some today }
      let u1 := { u with stats := some newStats }
      let r := reserveAIQuota today AI_DAILY_LIMIT u1.quota
      if !r.1 then { u1 with quota := r.2, messagesSent := u1.messagesSent + 1 }
      else if genOk then { u1 with quota := r.2, messagesSent := u1.messagesSent + 1 }
      else { u1 with quota := rollbackAIQuota r.2, messagesSent := u1.messagesSent + 1 }

/-! ### Webhook task submission and /plan default date -/

/-- The plain-text submission path of the webhook (final revision,
lines 610-619): every parsed `(time, name)` line is inserted with
`task_date` equal to the active date for the user's offset. -/
def webhookSaveTasks (utcMin offset : Int) (parsed : List (Int × String)) : List Task :=
  parsed.map (fun p => freshTask (getActiveDate utcMin offset).1 p.1 p.2)

/-- The date `/plan` (with no argument) lists: the active date. -/
def planDefaultDate (utcMin offset : Int) : Int := (getActiveDate utcMin offset).1

/-! ### Per-task lifecycle machine (for the terminal-state invariant) -/

/-- The reminder sweep as seen by a single task row. -/
def remindTaskStep (today nowMin : Int) (t : Task) : Task :=
  if reminderSelects today nowMin t then { t with reminderSent := true } else t

/-- The user's `doing ...` reply as seen by a single task row: the SQL
updates at most one row (`LIMIT 1`), so an eligible row may or may not be
the chosen one (`chosen`); eligibility is same date, scheduled time not
after now, and no response recorded yet. -/
def respondTaskStep (chosen : Bool) (today nowMin : Int) (r : String) (t : Task) : Task :=
  if chosen && decide (t.taskDate = today) && decide (t.taskTimeMin ≤ nowMin)
      && t.userResponse.isNone then
    { t with userResponse := some r, respondedAt := some nowMin }
  else t

/-- The angry-check sweep as seen by a single task row. -/
def feedbackTaskStep (genOk : Bool) (today nowMin : Int) (q : QuotaState) (t : Task) : Task :=
  if angryCheckSelects today nowMin t then (evalFeedbackTask genOk today q t).task else t

/-- The daily-reset sweep as seen by a single task row. -/
def rolloverTaskStep (today : Int) (t : Task) : Task :=
  if decide (t.taskDate < today) then resetTaskFields t else t

/-- Task rows reachable from insertion through any sequence of engine
operations (with arbitrary local times, quota states and external
outcomes). -/
inductive ReachableTask : Task → Prop where
  | insert (d tm : Int) (nm : String) : ReachableTask (freshTask d tm nm)
  | remind (today nowMin : Int) {t : Task} :
      ReachableTask t → ReachableTask (remindTaskStep today nowMin t)
  | respond (chosen : Bool) (today nowMin : Int) (r : String) {t : Task} :
      ReachableTask t → ReachableTask (respondTaskStep chosen today nowMin r t)
  | feedback (genOk : Bool) (today nowMin : Int) (q : QuotaState) {t : Task} :
      ReachableTask t → ReachableTask (feedbackTaskStep genOk today nowMin q t)
  | rollover (today : Int) {t : Task} :
      ReachableTask t → ReachableTask (rolloverTaskStep today t)

/-! ### Helper lemmas -/

/-- The rational success test agrees with the integer cross-multiplied
form (`completed / planned >= 0.7` iff `7 * planned ≤ 10 * completed`
when anything was planned). -/
theorem isSuccessfulDay_eq (p c : Nat) :
    isSuccessfulDay p c = (decide (p ≠ 0) && decide (7 * p ≤ 10 * c)) := by
  unfold isSuccessfulDay
  by_cases hp : p = 0
  · simp [hp]
  · have hp0 : (0 : ℚ) < (p : ℚ) := by exact_mod_cast Nat.pos_of_ne_zero hp
    simp only [hp, if_false, decide_not, ge_iff_le]
    have hiff : ((7 : ℚ) / 10 ≤ (c : ℚ) / (p : ℚ)) ↔ (7 * p ≤ 10 * c) := by
      rw [div_le_div_iff₀ (by norm_num) hp0]
      constructor
      · intro h
        have h2 : (7 * p : ℚ) ≤ (10 * c : ℚ) := by linarith
        exact_mod_cast h2
      · intro h
        have h2 : (7 * p : ℚ) ≤ (10 * c : ℚ) := by exact_mod_cast h
        linarith
    simp [hiff, hp]

/-- Reserve on a state already stamped with today's date: plain
conditional increment. -/
theorem reserve_same_day (today limit c : Int) :
    reserveAIQuota today limit ⟨c, some today⟩ =
      if c < limit then (true, ⟨c + 1, some today⟩) else (false, ⟨c, some today⟩) := by
  unfold reserveAIQuota
  by_cases h : c < limit <;> simp [h]

/-- Reserve on a state whose stored reset-date differs from today:
always succeeds, resetting the counter to 1 and stamping today. -/
theorem reserve_new_day (today limit : Int) (q : QuotaState) (h : q.aiResetDate ≠ some today) :
    reserveAIQuota today limit q = (true, ⟨1, some today⟩) := by
  unfold reserveAIQuota
  simp [h]

theorem countTrue_cons_true (l : List Bool) : countTrue (true :: l) = countTrue l + 1 := by
  simp [countTrue, List.filter_cons, Nat.add_comm]

theorem countTrue_cons_false (l : List Bool) : countTrue (false :: l) = countTrue l := by
  simp [countTrue, List.filter_cons]

theorem countFalse_cons_true (l : List Bool) : countFalse (true :: l) = countFalse l := by
  simp [countFalse, List.filter_cons]

theorem countFalse_cons_false (l : List Bool) : countFalse (false :: l) = countFalse l + 1 := by
  simp [countFalse, List.filter_cons, Nat.add_comm]

/-- Counting outcomes of a run of same-day Reserve calls at limit 20. -/
theorem runReserves_same_day_count (today : Int) :
    ∀ (k : Nat) (c : Int), 0 ≤ c →
      countTrue (runReserves today 20 k ⟨c, some today⟩).1 = min k (Int.toNat (20 - c)) ∧
      countFalse (runReserves today 20 k ⟨c, some today⟩).1 = k - min k (Int.toNat (20 - c)) ∧
      (runReserves today 20 k ⟨c, some today⟩).1.length = k := by
  intro k
  induction k with
  | zero => intro c _; simp [runReserves, countTrue, countFalse]
  | succ n ih =>
    intro c hc
    by_cases h : c < 20
    · have step : runReserves today 20 (n + 1) ⟨c, some today⟩ =
          (true :: (runReserves today 20 n ⟨c + 1, some today⟩).1,
           (runReserves today 20 n ⟨c + 1, some today⟩).2) := by
        simp [runReserves, reserve_same_day, h]
      obtain ⟨h1, h2, h3⟩ := ih (c + 1) (by omega)
      rw [step]
      simp only [countTrue_cons_true, countFalse_cons_true, List.length_cons]
      rw [h1, h2]
      refine ⟨by omega, by omega, by omega⟩
    · have step : runReserves today 20 (n + 1) ⟨c, some today⟩ =
          (false :: (runReserves today 20 n ⟨c, some today⟩).1,
           (runReserves today 20 n ⟨c, some today⟩).2) := by
        simp [runReserves, reserve_same_day, h]
      obtain ⟨h1, h2, h3⟩ := ih c hc
      rw [step]
      simp only [countTrue_cons_false, countFalse_cons_false, List.length_cons]
      rw [h1, h2]
      refine ⟨by omega, by omega, by omega⟩

/-- The task of one evaluation is always the input task with exactly one
terminal flag forced to true. -/
theorem evalFeedbackTask_task_cases (genOk : Bool) (today : Int) (q : QuotaState) (t : Task) :
    (evalFeedbackTask genOk today q t).task = { t with scolded := true } ∨
    (evalFeedbackTask genOk today q t).task = { t with praised := true } := by
  simp only [evalFeedbackTask]
  split
  · exact Or.inl rfl
  · split
    · split
      · exact Or.inr rfl
      · exact Or.inl rfl
    · exact Or.inl rfl

/-- When quota is available, the evaluation praises exactly when
generation succeeds, the response is truthy and the classifier fires. -/
theorem evalFeedbackTask_praised_iff (genOk : Bool) (today : Int) (q : QuotaState) (t : Task)
    (hr : (reserveAIQuota today AI_DAILY_LIMIT q).1 = true) (hp : t.praised = false) :
    ((evalFeedbackTask genOk today q t).task.praised = true) ↔
      (genOk = true ∧ responseTruthy t.userResponse = true ∧
        isDoingTask t.taskName (t.userResponse.getD "") = true) := by
  simp only [evalFeedbackTask, hr]
  cases genOk with
  | false => simp [hp]
  | true =>
    cases htr : responseTruthy t.userResponse <;>
      cases hdo : isDoingTask t.taskName (t.userResponse.getD "") <;>
        simp [htr, hdo, hp]

/-- The classifier fires exactly when some word of the task name longer
than two characters occurs as a substring of the lowercased response. -/
theorem isDoingTask_iff (name resp : String) :
    isDoingTask name resp = true ↔
      ∃ w ∈ splitWords (lowerStr name), 2 < strLen w ∧ strIncludes (lowerStr resp) w = true := by
  simp [isDoingTask, taskContentWords, List.any_eq_true, List.mem_filter]

/-- A failed Reserve leaves the quota columns unchanged. -/
theorem reserve_fail_id (today limit : Int) (q : QuotaState)
    (h : (reserveAIQuota today limit q).1 = false) :
    (reserveAIQuota today limit q).2 = q := by
  unfold reserveAIQuota at h ⊢
  by_cases hc : q.aiResetDate ≠ some today ∨ q.aiCallsToday < limit
  · rw [if_pos hc] at h
    cases h
  · rw [if_neg hc]

/-- A `Reminded` but unanswered example task (name "Study Go" at 09:00),
with a configurable stored response, for concrete evaluations. -/
def feedbackExampleTask (resp : Option String) : Task :=
  { freshTask 0 540 "Study Go" with reminderSent := true, userResponse := resp }

/-- Example task whose name "run" occurs as a substring, but not as a
word, of the response "brunch". -/
def runExampleTask : Task :=
  { freshTask 0 540 "run" with reminderSent := true, userResponse := some "brunch" }

/-! ### Claim theorems -/

/-- C1: the quota Reserve, a single conditional update, resets the
counter to 1 and stamps today when the stored reset-date differs from
the user's current local date, otherwise increments only while the
counter is below the limit (failing and leaving the state unchanged at
the limit); consequently, with limit 20, any serialization of 25 Reserve
calls for the same user starting on a day the counter was not yet
stamped for yields exactly 20 successes and 5 failures. -/
theorem quota_reserve_conditional_update (today limit : Int) (q : QuotaState) :
    (q.aiResetDate ≠ some today →
      reserveAIQuota today limit q = (true, ⟨1, some today⟩)) ∧
    (q.aiResetDate = some today →
      (q.aiCallsToday < limit →
        reserveAIQuota today limit q = (true, ⟨q.aiCallsToday + 1, some today⟩)) ∧
      (¬ q.aiCallsToday < limit →
        reserveAIQuota today limit q = (false, q))) ∧
    (q.aiResetDate ≠ some today →
      countTrue (runReserves today 20 25 q).1 = 20 ∧
      countFalse (runReserves today 20 25 q).1 = 5 ∧
      (runReserves today 20 25 q).1.length = 25) := by
  refine ⟨fun h => reserve_new_day today limit q h, ?_, ?_⟩
  · intro h
    constructor
    · intro hlt
      obtain ⟨c, d⟩ := q
      simp only at h
      subst h
      rw [reserve_same_day, if_pos hlt]
    · intro hge
      obtain ⟨c, d⟩ := q
      simp only at h
      subst h
      rw [reserve_same_day, if_neg hge]
  · intro h
    have step : runReserves today 20 25 q =
        (true :: (runReserves today 20 24 ⟨1, some today⟩).1,
         (runReserves today 20 24 ⟨1, some today⟩).2) := by
      show runReserves today 20 (24 + 1) q = _
      simp [runReserves, reserve_new_day today 20 q h]
    obtain ⟨h1, h2, h3⟩ := runReserves_same_day_count today 24 1 (by omega)
    rw [step]
    simp only [countTrue_cons_true, countFalse_cons_true, List.length_cons]
    rw [h1, h2]
    refine ⟨by omega, by omega, by omega⟩

/-- Witness for C1 at a concrete stale state: the first call of the new
day resets to 1, and 25 calls yield 20 successes and 5 failures. -/
theorem quota_reserve_conditional_update_witness :
    reserveAIQuota 3 20 ⟨7, some 2⟩ = (true, ⟨1, some 3⟩) ∧
    countTrue (runReserves 3 20 25 ⟨7, some 2⟩).1 = 20 ∧
    countFalse (runReserves 3 20 25 ⟨7, some 2⟩).1 = 5 := by
  have h := quota_reserve_conditional_update 3 20 ⟨7, some 2⟩
  exact ⟨h.1 (by decide), (h.2.2 (by decide)).1, (h.2.2 (by decide)).2.1⟩

/-- C2 (amended): with quota available and generation succeeding, a
selected (hence not yet praised) task transitions to Praised exactly
when a non-empty user response is present and some whitespace-separated
word of the task's name longer than 2 characters occurs, case-insensitively,
as a substring of the response text; in every other case it transitions
to Scolded. In particular, task "Study Go" with response "doing go study"
is Praised, response "watching tv" is Scolded, and a missing or empty
response is Scolded. -/
theorem feedback_praise_classification (today : Int) (q : QuotaState) (t : Task)
    (hr : (reserveAIQuota today AI_DAILY_LIMIT q).1 = true) (hp : t.praised = false) :
    (((evalFeedbackTask true today q t).task.praised = true) ↔
      (responseTruthy t.userResponse = true ∧
        ∃ w ∈ splitWords (lowerStr t.taskName),
          2 < strLen w ∧ strIncludes (lowerStr (t.userResponse.getD "")) w = true)) ∧
    ((evalFeedbackTask true today q t).task.praised = true ∨
      (evalFeedbackTask true today q t).task.scolded = true) ∧
    (evalFeedbackTask true 0 ⟨0, none⟩ (feedbackExampleTask (some "doing go study"))).task.praised = true ∧
    (evalFeedbackTask true 0 ⟨0, none⟩ (feedbackExampleTask (some "watching tv"))).task.scolded = true ∧
    (evalFeedbackTask true 0 ⟨0, none⟩ (feedbackExampleTask (some ""))).task.scolded = true ∧
    (evalFeedbackTask true 0 ⟨0, none⟩ (feedbackExampleTask none)).task.scolded = true := by
  refine ⟨?_, ?_, by decide, by decide, by decide, by decide⟩
  · rw [evalFeedbackTask_praised_iff true today q t hr hp, isDoingTask_iff]
    simp
  · rcases evalFeedbackTask_task_cases true today q t with h | h <;> rw [h] <;> simp

/-- Witness for C2 at a concrete same-day quota state and the
"doing go study" example. -/
theorem feedback_praise_classification_witness :
    (evalFeedbackTask true 5 ⟨2, some 5⟩ (feedbackExampleTask (some "doing go study"))).task.praised = true ∨
    (evalFeedbackTask true 5 ⟨2, some 5⟩ (feedbackExampleTask (some "doing go study"))).task.scolded = true := by
  exact (feedback_praise_classification 5 ⟨2, some 5⟩
    (feedbackExampleTask (some "doing go study")) (by decide) (by decide)).2.1

/-- Counterexample to C2 as stated: task name "run" and response
"brunch" share no word at all, yet the code praises, because the check
is substring containment (`response.includes(w)`), not word overlap. -/
theorem feedback_praise_word_overlap_cex :
    (evalFeedbackTask true 0 ⟨0, none⟩ runExampleTask).task.praised = true ∧
    responseTruthy runExampleTask.userResponse = true ∧
    ¬ ∃ w ∈ splitWords (lowerStr "run"),
        2 < strLen w ∧ w ∈ splitWords (lowerStr "brunch") := by
  decide

/-- C4: every evaluated task ends terminal in the same invocation: on
quota failure it is scolded silently with no AI text and the quota
columns untouched; on quota success with failed generation the quota is
rolled back and the task is still scolded. -/
theorem feedback_terminal_failsafe (genOk : Bool) (today : Int) (q : QuotaState) (t : Task) :
    ((evalFeedbackTask genOk today q t).task.praised = true ∨
      (evalFeedbackTask genOk today q t).task.scolded = true) ∧
    ((reserveAIQuota today AI_DAILY_LIMIT q).1 = false →
      ((evalFeedbackTask genOk today q t).task = { t with scolded := true } ∧
       (evalFeedbackTask genOk today q t).sent = none ∧
       (evalFeedbackTask genOk today q t).aiTextGenerated = false ∧
       (evalFeedbackTask genOk today q t).quota = q)) ∧
    ((reserveAIQuota today AI_DAILY_LIMIT q).1 = true → genOk = false →
      ((evalFeedbackTask genOk today q t).task = { t with scolded := true } ∧
       (evalFeedbackTask genOk today q t).quota =
         rollbackAIQuota (reserveAIQuota today AI_DAILY_LIMIT q).2 ∧
       (evalFeedbackTask genOk today q t).aiTextGenerated = false)) := by
  refine ⟨?_, ?_, ?_⟩
  · rcases evalFeedbackTask_task_cases genOk today q t with h | h <;> rw [h] <;> simp
  · intro hf
    have hq := reserve_fail_id today AI_DAILY_LIMIT q hf
    simp only [evalFeedbackTask, hf]
    simp [hq]
  · intro ht hg
    subst hg
    simp [evalFeedbackTask, ht]

/-- Witness for C4: an exhausted quota state forces a silent scold, and
a generation failure forces a rollback plus scold. -/
theorem feedback_terminal_failsafe_witness :
    (evalFeedbackTask true 0 ⟨20, some 0⟩ (feedbackExampleTask (some "doing go study"))).task =
      { feedbackExampleTask (some "doing go study") with scolded := true } ∧
    (evalFeedbackTask true 0 ⟨20, some 0⟩ (feedbackExampleTask (some "doing go study"))).quota =
      (⟨20, some 0⟩ : QuotaState) ∧
    (evalFeedbackTask false 3 ⟨0, none⟩ (feedbackExampleTask none)).task =
      { feedbackExampleTask none with scolded := true } ∧
    (evalFeedbackTask false 3 ⟨0, none⟩ (feedbackExampleTask none)).quota =
      rollbackAIQuota (reserveAIQuota 3 AI_DAILY_LIMIT ⟨0, none⟩).2 := by
  have h1 := (feedback_terminal_failsafe true 0 ⟨20, some 0⟩
    (feedbackExampleTask (some "doing go study"))).2.1 (by decide)
  have h2 := (feedback_terminal_failsafe false 3 ⟨0, none⟩
    (feedbackExampleTask none)).2.2 (by decide) rfl
  exact ⟨h1.1, h1.2.2.2, h2.1, h2.2.1⟩

/-- C9 (amended): when the stored reset-date already equals the current
local date, a successful Reserve followed by Rollback restores the
stored counter exactly, and a successful Reserve alone increments it by
one; on a day the counter is not yet stamped for, a successful Reserve
sets it to 1 (so Reserve-then-Rollback lands at 0, today's true
pre-reservation count, rather than the stale stored value); Rollback
never drives the counter below zero. -/
theorem quota_rollback_net (today : Int) (q : QuotaState) :
    (q.aiResetDate = some today → 0 ≤ q.aiCallsToday →
      (reserveAIQuota today AI_DAILY_LIMIT q).1 = true →
      ((rollbackAIQuota (reserveAIQuota today AI_DAILY_LIMIT q).2).aiCallsToday =
          q.aiCallsToday ∧
       (reserveAIQuota today AI_DAILY_LIMIT q).2.aiCallsToday = q.aiCallsToday + 1)) ∧
    (q.aiResetDate ≠ some today →
      ((reserveAIQuota today AI_DAILY_LIMIT q).1 = true ∧
       (reserveAIQuota today AI_DAILY_LIMIT q).2.aiCallsToday = 1 ∧
       (rollbackAIQuota (reserveAIQuota today AI_DAILY_LIMIT q).2).aiCallsToday = 0)) ∧
    0 ≤ (rollbackAIQuota q).aiCallsToday := by
  refine ⟨?_, ?_, le_max_left 0 _⟩
  · intro hd hc hok
    obtain ⟨c, d⟩ := q
    simp only at hd hc
    subst hd
    rw [reserve_same_day] at hok ⊢
    by_cases hlt : c < AI_DAILY_LIMIT
    · rw [if_pos hlt]
      simp [rollbackAIQuota]
      omega
    · rw [if_neg hlt] at hok
      cases hok
  · intro hd
    rw [reserve_new_day today AI_DAILY_LIMIT q hd]
    simp [rollbackAIQuota]

/-- Witness for C9 at concrete states: same-day reserve-then-rollback is
net zero (4 → 5 → 4) and a stale-date reserve-then-rollback lands at 0. -/
theorem quota_rollback_net_witness :
    (rollbackAIQuota (reserveAIQuota 2 AI_DAILY_LIMIT ⟨4, some 2⟩).2).aiCallsToday = 4 ∧
    (reserveAIQuota 2 AI_DAILY_LIMIT ⟨4, some 2⟩).2.aiCallsToday = 5 ∧
    (rollbackAIQuota (reserveAIQuota 1 AI_DAILY_LIMIT ⟨5, some 0⟩).2).aiCallsToday = 0 := by
  have h := (quota_rollback_net 2 ⟨4, some 2⟩).1 (by decide) (by decide) (by decide)
  have h2 := (quota_rollback_net 1 ⟨5, some 0⟩).2.1 (by decide)
  exact ⟨h.1, h.2.trans (by decide), h2.2.2⟩

/-- Counterexample to C9 as stated: with stored state (counter 5,
reset-date day 0) and current local date day 1, Reserve succeeds and
Rollback then leaves the stored counter at 0, not at its pre-reservation
value 5; nor did the successful Reserve increment it by one (it reset it
to 1). -/
theorem quota_rollback_net_cex :
    (reserveAIQuota 1 AI_DAILY_LIMIT ⟨5, some 0⟩).1 = true ∧
    (rollbackAIQuota (reserveAIQuota 1 AI_DAILY_LIMIT ⟨5, some 0⟩).2).aiCallsToday = 0 ∧
    ((0 : Int) ≠ 5) ∧
    (reserveAIQuota 1 AI_DAILY_LIMIT ⟨5, some 0⟩).2.aiCallsToday = 1 ∧
    ((1 : Int) ≠ 5 + 1) := by
  decide

/-- A summary pass with nothing planned for today changes nothing. -/
theorem dailySummaryStep_planned_zero (genOk : Bool) (today : Int) (u : SummaryUserState)
    (h : (u.tasks.filter (fun t => decide (t.taskDate = today))).length = 0) :
    dailySummaryStep genOk today u = u := by
  simp only [dailySummaryStep]
  rw [if_pos h]

/-- A summary pass gated by `last_summary_date = today` changes nothing. -/
theorem dailySummaryStep_gate (genOk : Bool) (today : Int) (u : SummaryUserState)
    (h : (u.stats.getD ⟨0, 0, none, none⟩).lastSummaryDate = some today) :
    dailySummaryStep genOk today u = u := by
  simp only [dailySummaryStep]
  by_cases hp : (u.tasks.filter (fun t => decide (t.taskDate = today))).length = 0
  · rw [if_pos hp]
  · rw [if_neg hp, if_pos h]

/-- An ungated summary pass stamps `last_summary_date = today`. -/
theorem dailySummaryStep_writes (genOk : Bool) (today : Int) (u : SummaryUserState)
    (hp : ¬ (u.tasks.filter (fun t => decide (t.taskDate = today))).length = 0)
    (hg : ¬ (u.stats.getD ⟨0, 0, none, none⟩).lastSummaryDate = some today) :
    ((dailySummaryStep genOk today u).stats.getD ⟨0, 0, none, none⟩).lastSummaryDate =
      some today := by
  simp only [dailySummaryStep]
  rw [if_neg hp, if_neg hg]
  split
  · split <;> rfl
  · split <;> split <;> rfl

/-- The success test unfolds to the exact rational threshold when
anything was planned. -/
theorem isSuccessfulDay_true_iff (p c : Nat) (hp : p ≠ 0) :
    isSuccessfulDay p c = true ↔ ((c : ℚ) / (p : ℚ) ≥ 7 / 10) := by
  unfold isSuccessfulDay
  simp [hp]

/-- The stats row an ungated summary pass writes. -/
theorem dailySummaryStep_stats (genOk : Bool) (today : Int) (u : SummaryUserState)
    (hp : ¬ (u.tasks.filter (fun t => decide (t.taskDate = today))).length = 0)
    (hg : ¬ (u.stats.getD ⟨0, 0, none, none⟩).lastSummaryDate = some today) :
    (dailySummaryStep genOk today u).stats = some (
      if isSuccessfulDay (u.tasks.filter (fun t => decide (t.taskDate = today))).length
          (u.tasks.filter (fun t => decide (t.taskDate = today) && t.praised)).length then
        { currentStreak :=
            if (u.stats.getD ⟨0, 0, none, none⟩).lastSuccessDate = some (getDatePlusDays today (-1))
            then (u.stats.getD ⟨0, 0, none, none⟩).currentStreak + 1 else 1,
          longestStreak := max (u.stats.getD ⟨0, 0, none, none⟩).longestStreak
            (if (u.stats.getD ⟨0, 0, none, none⟩).lastSuccessDate = some (getDatePlusDays today (-1))
             then (u.stats.getD ⟨0, 0, none, none⟩).currentStreak + 1 else 1),
          lastSuccessDate := some today, lastSummaryDate := some today }
      else
        { currentStreak := 0,
          longestStreak := (u.stats.getD ⟨0, 0, none, none⟩).longestStreak,
          lastSuccessDate := (u.stats.getD ⟨0, 0, none, none⟩).lastSuccessDate,
          lastSummaryDate := some today }) := by
  simp only [dailySummaryStep]
  rw [if_neg hp, if_neg hg]
  split
  · rfl
  · split <;> rfl

/-- Three-day streak scenario data: one fully completed task on each of
days 0 and 1, one missed task on day 2. -/
def scenarioTasks : List Task :=
  [{ freshTask 0 540 "a" with praised := true },
   { freshTask 1 540 "b" with praised := true },
   freshTask 2 540 "c"]

/-- Initial user state of the streak scenario (no stats row yet). -/
def scenarioU : SummaryUserState := ⟨scenarioTasks, none, ⟨0, none⟩, 0⟩

/-- Lifecycle-flag invariant of every reachable task row: never both
terminal flags, and a terminal task was necessarily reminded. -/
theorem reachable_task_flags {t : Task} (h : ReachableTask t) :
    ¬ (t.praised = true ∧ t.scolded = true) ∧
    ((t.praised = true ∨ t.scolded = true) → t.reminderSent = true) := by
  induction h with
  | insert d tm nm => simp [freshTask]
  | remind today nowMin ht ih =>
    unfold remindTaskStep
    split
    · exact ⟨fun hc => ih.1 ⟨hc.1, hc.2⟩, fun _ => rfl⟩
    · exact ih
  | respond chosen today nowMin r ht ih =>
    unfold respondTaskStep
    split
    · exact ih
    · exact ih
  | feedback genOk today nowMin q ht ih =>
    rename_i t'
    unfold feedbackTaskStep
    split
    · rename_i hsel
      simp only [angryCheckSelects, Bool.and_eq_true, decide_eq_true_eq,
        Bool.not_eq_true'] at hsel
      obtain ⟨⟨⟨⟨⟨hd, hp⟩, hs⟩, hr⟩, h1⟩, h2⟩ := hsel
      rcases evalFeedbackTask_task_cases genOk today q t' with h | h <;> rw [h]
      · exact ⟨fun hc => by simp [hp] at hc, fun _ => hr⟩
      · exact ⟨fun hc => by simp [hs] at hc, fun _ => hr⟩
    · exact ih
  | rollover today ht ih =>
    unfold rolloverTaskStep
    split
    · simp [resetTaskFields]
    · exact ih

/-- C3 (amended): the Reminder Sweep selects, per user, exactly the
tasks of the user's current local date with `reminderSent = false` whose
scheduled minutes-of-day lie in the window `[now - 2, now + 3]` — a
window whose width `3 - (-2) = 5` equals the 5-minute sweep cadence and
which is not forward-looking (it reaches two minutes into the past) —
and marks each selected task `reminderSent = true` in the same
operation. -/
theorem reminder_sweep_window (today nowMin : Int) (ts : List Task) :
    ((taskRemindersSweep today nowMin ts).2 =
      ((ts.filter (fun t => decide (t.taskDate = today) && !t.reminderSent
          && decide (nowMin - 2 ≤ t.taskTimeMin) && decide (t.taskTimeMin ≤ nowMin + 3))).map
        (fun t => { t with reminderSent := true }))) ∧
    (∀ t ∈ (taskRemindersSweep today nowMin ts).2, t.reminderSent = true) ∧
    ((taskRemindersSweep today nowMin ts).1 =
      ts.map (fun t =>
        if decide (t.taskDate = today) && !t.reminderSent
            && decide (nowMin - 2 ≤ t.taskTimeMin) && decide (t.taskTimeMin ≤ nowMin + 3)
          then { t with reminderSent := true } else t)) ∧
    reminderSelects today nowMin (freshTask today (nowMin - 2) "x") = true ∧
    (nowMin + 3) - (nowMin - 2) = 5 := by
  refine ⟨rfl, ?_, rfl, ?_, by omega⟩
  · intro t ht
    simp only [taskRemindersSweep, List.mem_map] at ht
    obtain ⟨t0, _, rfl⟩ := ht
    rfl
  · simp [reminderSelects, freshTask]
    omega

/-- Witness for C3: a concrete sweep at 10:00 claims the 09:58 and 10:03
tasks of today, skips the 09:57 task, the already-reminded task and
yesterday's task, and marks the claimed rows in the same operation. -/
theorem reminder_sweep_window_witness :
    (taskRemindersSweep 7 600 [freshTask 7 598 "a", freshTask 7 603 "b", freshTask 7 597 "c",
        { freshTask 7 600 "d" with reminderSent := true }, freshTask 6 600 "e"]).2 =
      [{ freshTask 7 598 "a" with reminderSent := true },
       { freshTask 7 603 "b" with reminderSent := true }] ∧
    (taskRemindersSweep 7 600 [freshTask 7 598 "a", freshTask 7 603 "b", freshTask 7 597 "c",
        { freshTask 7 600 "d" with reminderSent := true }, freshTask 6 600 "e"]).1 =
      [{ freshTask 7 598 "a" with reminderSent := true },
       { freshTask 7 603 "b" with reminderSent := true }, freshTask 7 597 "c",
       { freshTask 7 600 "d" with reminderSent := true }, freshTask 6 600 "e"] := by
  have h := reminder_sweep_window 7 600 [freshTask 7 598 "a", freshTask 7 603 "b",
    freshTask 7 597 "c", { freshTask 7 600 "d" with reminderSent := true }, freshTask 6 600 "e"]
  exact ⟨h.1.trans (by decide), h.2.2.1.trans (by decide)⟩

/-- Counterexample to C3 as stated: the final code's selection window at
a fixed local time is the six minute values `[now - 2, now + 3]`; no
interval `[now + leadLow, now + leadHigh]` with `leadHigh - leadLow`
strictly greater than 5 describes it. -/
theorem reminder_sweep_forward_window_cex :
    ¬ ∃ lo hi : Int, hi - lo > 5 ∧
      ∀ m : Int, reminderSelects 0 600 (freshTask 0 m "x") = true ↔
        (600 + lo ≤ m ∧ m ≤ 600 + hi) := by
  rintro ⟨lo, hi, hgt, hall⟩
  have h598 := (hall 598).mp (by decide)
  have h603 := (hall 603).mp (by decide)
  have h597 : ¬ (600 + lo ≤ 597 ∧ 597 ≤ 600 + hi) := by
    intro hc
    exact absurd ((hall 597).mpr hc) (by decide)
  have h604 : ¬ (600 + lo ≤ 604 ∧ 604 ≤ 600 + hi) := by
    intro hc
    exact absurd ((hall 604).mpr hc) (by decide)
  omega

/-- C5: when `lastSummaryDate` already equals the user's current local
date the Daily Aggregator performs no state change at all (tasks, stats,
quota and message count all unchanged), and running the aggregator twice
for the same user-local-date leaves the state of the second run
identical to the state after the first, whatever the generation
outcomes. -/
theorem daily_summary_idempotent (genOk genOk' : Bool) (today : Int) (u : SummaryUserState) :
    ((u.stats.getD ⟨0, 0, none, none⟩).lastSummaryDate = some today →
      dailySummaryStep genOk today u = u) ∧
    dailySummaryStep genOk' today (dailySummaryStep genOk today u) =
      dailySummaryStep genOk today u := by
  refine ⟨fun h => dailySummaryStep_gate genOk today u h, ?_⟩
  by_cases hp : (u.tasks.filter (fun t => decide (t.taskDate = today))).length = 0
  · rw [dailySummaryStep_planned_zero genOk today u hp,
        dailySummaryStep_planned_zero genOk' today u hp]
  · by_cases hg : (u.stats.getD ⟨0, 0, none, none⟩).lastSummaryDate = some today
    · rw [dailySummaryStep_gate genOk today u hg, dailySummaryStep_gate genOk' today u hg]
    · exact dailySummaryStep_gate genOk' today _ (dailySummaryStep_writes genOk today u hp hg)

/-- Witness for C5: a user whose stats row is already stamped for today
is left fully unchanged. -/
theorem daily_summary_idempotent_witness :
    dailySummaryStep true 4 ⟨[freshTask 4 540 "a"], some ⟨3, 5, some 3, some 4⟩, ⟨2, some 4⟩, 9⟩ =
      ⟨[freshTask 4 540 "a"], some ⟨3, 5, some 3, some 4⟩, ⟨2, some 4⟩, 9⟩ := by
  exact (daily_summary_idempotent true false 4
    ⟨[freshTask 4 540 "a"], some ⟨3, 5, some 3, some 4⟩, ⟨2, some 4⟩, 9⟩).1 (by decide)

/-- C6: an ungated aggregator run with a non-empty plan classifies the
day successful exactly when completed/planned is at least 7/10, then
increments the streak when the last success was local-yesterday, resets
it to 1 on success otherwise, resets it to 0 on failure, and sets the
longest streak to the maximum of its previous value and the new current
streak (so it never decreases). The three-day scenario: success on day 0
gives streak 1, success on day 1 (last success day 0) gives streak 2,
failure on day 2 resets the streak to 0 with longest streak staying 2. -/
theorem daily_summary_streak_update (genOk : Bool) (today : Int) (u : SummaryUserState)
    (hp : (u.tasks.filter (fun t => decide (t.taskDate = today))).length ≠ 0)
    (hg : (u.stats.getD ⟨0, 0, none, none⟩).lastSummaryDate ≠ some today)
    (hlong : 0 ≤ (u.stats.getD ⟨0, 0, none, none⟩).longestStreak) :
    (∃ row : StatsRow,
      (dailySummaryStep genOk today u).stats = some row ∧
      (((u.tasks.filter (fun t => decide (t.taskDate = today) && t.praised)).length : ℚ) /
          ((u.tasks.filter (fun t => decide (t.taskDate = today))).length : ℚ) ≥ 7 / 10 →
        ((u.stats.getD ⟨0, 0, none, none⟩).lastSuccessDate = some (getDatePlusDays today (-1)) →
          row.currentStreak = (u.stats.getD ⟨0, 0, none, none⟩).currentStreak + 1) ∧
        ((u.stats.getD ⟨0, 0, none, none⟩).lastSuccessDate ≠ some (getDatePlusDays today (-1)) →
          row.currentStreak = 1)) ∧
      (¬ (((u.tasks.filter (fun t => decide (t.taskDate = today) && t.praised)).length : ℚ) /
          ((u.tasks.filter (fun t => decide (t.taskDate = today))).length : ℚ) ≥ 7 / 10) →
        row.currentStreak = 0) ∧
      row.longestStreak =
        max (u.stats.getD ⟨0, 0, none, none⟩).longestStreak row.currentStreak ∧
      (u.stats.getD ⟨0, 0, none, none⟩).longestStreak ≤ row.longestStreak) ∧
    dailySummaryStep true 0 scenarioU =
      ⟨scenarioTasks, some ⟨1, 1, some 0, some 0⟩, ⟨1, some 0⟩, 1⟩ ∧
    dailySummaryStep true 1 ⟨scenarioTasks, some ⟨1, 1, some 0, some 0⟩, ⟨1, some 0⟩, 1⟩ =
      ⟨scenarioTasks, some ⟨2, 2, some 1, some 1⟩, ⟨1, some 1⟩, 2⟩ ∧
    dailySummaryStep true 2 ⟨scenarioTasks, some ⟨2, 2, some 1, some 1⟩, ⟨1, some 1⟩, 2⟩ =
      ⟨scenarioTasks, some ⟨0, 2, some 1, some 2⟩, ⟨1, some 2⟩, 3⟩ := by
  refine ⟨?_, ?_, ?_, ?_⟩
  · rw [dailySummaryStep_stats genOk today u hp hg]
    have hiff := isSuccessfulDay_true_iff
      (u.tasks.filter (fun t => decide (t.taskDate = today))).length
      (u.tasks.filter (fun t => decide (t.taskDate = today) && t.praised)).length hp
    set s := u.stats.getD (⟨0, 0, none, none⟩ : StatsRow) with hsdef
    by_cases hs : isSuccessfulDay
        (u.tasks.filter (fun t => decide (t.taskDate = today))).length
        (u.tasks.filter (fun t => decide (t.taskDate = today) && t.praised)).length = true
    · refine ⟨⟨if s.lastSuccessDate = some (getDatePlusDays today (-1)) then s.currentStreak + 1 else 1, max s.longestStreak (if s.lastSuccessDate = some (getDatePlusDays today (-1)) then s.currentStreak + 1 else 1), some today, some today⟩, by rw [if_pos hs], ?_, ?_, rfl, le_max_left _ _⟩
      · intro _
        constructor
        · intro hy
          simp only [if_pos hy]
        · intro hy
          simp only [if_neg hy]
      · intro hratio
        exact absurd (hiff.mp hs) hratio
    · refine ⟨⟨0, s.longestStreak, s.lastSuccessDate, some today⟩, by rw [if_neg hs], ?_, fun _ => rfl, (max_eq_left hlong).symm, le_refl _⟩
      intro hratio
      exact absurd (hiff.mpr hratio) hs
  · simp only [dailySummaryStep]
    norm_num [isSuccessfulDay_eq, scenarioU, scenarioTasks, freshTask, getDatePlusDays,
      reserveAIQuota, AI_DAILY_LIMIT]
    simp
  · simp only [dailySummaryStep]
    norm_num [isSuccessfulDay_eq, scenarioTasks, freshTask, getDatePlusDays,
      reserveAIQuota, AI_DAILY_LIMIT]
  · simp only [dailySummaryStep]
    norm_num [isSuccessfulDay_eq, scenarioTasks, freshTask, getDatePlusDays,
      reserveAIQuota, AI_DAILY_LIMIT]

/-- Witness for C6: the scenario's first day, with hypotheses discharged
at the concrete scenario state. -/
theorem daily_summary_streak_update_witness :
    dailySummaryStep true 0 scenarioU =
      ⟨scenarioTasks, some ⟨1, 1, some 0, some 0⟩, ⟨1, some 0⟩, 1⟩ := by
  exact (daily_summary_streak_update true 0 scenarioU
    (by decide) (by decide) (by decide)).2.1

/-- C7: for every reachable task row, `praised` and `scolded` are never
both true, and once either is true the row is terminal for the day:
neither the Reminder Sweep nor the Feedback Sweep selects it or changes
it, whatever the local time, quota state or generation outcome, until a
daily rollover. -/
theorem task_terminal_invariant (t : Task) (h : ReachableTask t) :
    ¬ (t.praised = true ∧ t.scolded = true) ∧
    ((t.praised = true ∨ t.scolded = true) →
      ∀ (today nowMin : Int) (genOk : Bool) (q : QuotaState),
        reminderSelects today nowMin t = false ∧
        remindTaskStep today nowMin t = t ∧
        angryCheckSelects today nowMin t = false ∧
        feedbackTaskStep genOk today nowMin q t = t) := by
  obtain ⟨hmx, hrem⟩ := reachable_task_flags h
  refine ⟨hmx, fun hterm today nowMin genOk q => ?_⟩
  have hrs : t.reminderSent = true := hrem hterm
  have hsel : reminderSelects today nowMin t = false := by
    simp [reminderSelects, hrs]
  have hasel : angryCheckSelects today nowMin t = false := by
    rcases hterm with hp | hs
    · simp [angryCheckSelects, hp]
    · simp [angryCheckSelects, hs]
  exact ⟨hsel, by simp [remindTaskStep, hsel], hasel, by simp [feedbackTaskStep, hasel]⟩

/-- Witness for C7: a concrete task driven to Scolded through insert,
remind and feedback is never selected or changed again by either sweep. -/
theorem task_terminal_invariant_witness :
    ¬ ((⟨0, 540, "Study Go", true, none, none, false, true⟩ : Task).praised = true ∧
        (⟨0, 540, "Study Go", true, none, none, false, true⟩ : Task).scolded = true) ∧
    reminderSelects 0 541 ⟨0, 540, "Study Go", true, none, none, false, true⟩ = false ∧
    remindTaskStep 0 541 ⟨0, 540, "Study Go", true, none, none, false, true⟩ =
      ⟨0, 540, "Study Go", true, none, none, false, true⟩ ∧
    angryCheckSelects 0 545 ⟨0, 540, "Study Go", true, none, none, false, true⟩ = false ∧
    feedbackTaskStep true 0 545 ⟨0, none⟩ ⟨0, 540, "Study Go", true, none, none, false, true⟩ =
      ⟨0, 540, "Study Go", true, none, none, false, true⟩ := by
  have hreach : ReachableTask ⟨0, 540, "Study Go", true, none, none, false, true⟩ := by
    have h1 := ReachableTask.insert 0 540 "Study Go"
    have h2 := ReachableTask.remind 0 540 h1
    have h3 := ReachableTask.feedback true 0 545 ⟨0, none⟩ h2
    have e : feedbackTaskStep true 0 545 ⟨0, none⟩
        (remindTaskStep 0 540 (freshTask 0 540 "Study Go")) =
        ⟨0, 540, "Study Go", true, none, none, false, true⟩ := by decide
    rwa [e] at h3
  obtain ⟨ha, hb⟩ := task_terminal_invariant ⟨0, 540, "Study Go", true, none, none, false, true⟩ hreach
  have h4 := hb (Or.inr rfl) 0 541 true ⟨0, none⟩
  have h5 := hb (Or.inr rfl) 0 545 true ⟨0, none⟩
  exact ⟨ha, h4.1, h4.2.1, h5.2.2.1, h5.2.2.2⟩

/-- C8: the daily reset, for each user, rewrites exactly the tasks dated
strictly before the user's current local date, setting `reminderSent`,
`praised` and `scolded` to false and clearing the response text and
timestamp, deletes no row, leaves tasks dated today or later unchanged,
and is idempotent. -/
theorem daily_reset_rollover (today : Int) (ts : List Task) :
    (dailyResetSweep today ts).length = ts.length ∧
    (∀ (i : Nat) (h : i < ts.length) (h2 : i < (dailyResetSweep today ts).length),
      ((ts.get ⟨i, h⟩).taskDate < today →
        (dailyResetSweep today ts).get ⟨i, h2⟩ =
          { ts.get ⟨i, h⟩ with reminderSent := false, praised := false, scolded := false, userResponse := none, respondedAt := none }) ∧
      (¬ (ts.get ⟨i, h⟩).taskDate < today →
        (dailyResetSweep today ts).get ⟨i, h2⟩ = ts.get ⟨i, h⟩)) ∧
    dailyResetSweep today (dailyResetSweep today ts) = dailyResetSweep today ts := by
  refine ⟨List.length_map ts _, ?_, ?_⟩
  · intro i h h2
    have hget : (dailyResetSweep today ts).get ⟨i, h2⟩ =
        (if decide ((ts.get ⟨i, h⟩).taskDate < today)
         then resetTaskFields (ts.get ⟨i, h⟩) else ts.get ⟨i, h⟩) := by
      simp [dailyResetSweep, List.getElem_map]
    constructor
    · intro hlt
      rw [hget, if_pos (by simpa using hlt)]
      rfl
    · intro hge
      rw [hget, if_neg (by simpa using hge)]
  · unfold dailyResetSweep
    rw [List.map_map]
    apply List.map_congr_left
    intro t _
    by_cases hd : t.taskDate < today
    · simp [Function.comp, hd, resetTaskFields]
    · simp [Function.comp, hd]

/-- Yesterday's reminded, answered and scolded example task, for the
rollover witness. -/
def yesterdayDoneTask : Task :=
  { freshTask (-1) 540 "Gym" with reminderSent := true, scolded := true, userResponse := some "tv", respondedAt := some 900 }

/-- Witness for C8: yesterday's scolded, answered task is restored to
its initial lifecycle values; today's task is untouched; a second run
changes nothing. -/
theorem daily_reset_rollover_witness :
    (dailyResetSweep 0 [yesterdayDoneTask, freshTask 0 600 "Go"]).length = 2 ∧
    (dailyResetSweep 0 [yesterdayDoneTask, freshTask 0 600 "Go"]).get ⟨0, by decide⟩ =
      freshTask (-1) 540 "Gym" ∧
    (dailyResetSweep 0 [yesterdayDoneTask, freshTask 0 600 "Go"]).get ⟨1, by decide⟩ =
      freshTask 0 600 "Go" ∧
    dailyResetSweep 0 (dailyResetSweep 0 [yesterdayDoneTask, freshTask 0 600 "Go"]) =
      dailyResetSweep 0 [yesterdayDoneTask, freshTask 0 600 "Go"] := by
  have h := daily_reset_rollover 0 [yesterdayDoneTask, freshTask 0 600 "Go"]
  have h0 := h.2.1 0 (by decide) (by decide)
  have h1 := h.2.1 1 (by decide) (by decide)
  exact ⟨h.1.trans (by decide), (h0.1 (by decide)).trans (by decide),
    (h1.2 (by decide)).trans (by decide), h.2.2⟩

/-- C10: a plain-text task submission accepted by the webhook saves
every parsed task under the user's local tomorrow when the local
minutes-since-midnight is at least 1080 (18:00), and under the local
today otherwise; `/plan` without an argument lists the same date. -/
theorem active_date_rule (utcMin offset : Int) (parsed : List (Int × String)) :
    (∀ t ∈ webhookSaveTasks utcMin offset parsed,
      t.taskDate = (if 1080 ≤ getUserMinutes utcMin offset
        then getDatePlusDays (getUserDate utcMin offset) 1
        else getUserDate utcMin offset)) ∧
    planDefaultDate utcMin offset =
      (if 1080 ≤ getUserMinutes utcMin offset
        then getDatePlusDays (getUserDate utcMin offset) 1
        else getUserDate utcMin offset) := by
  have hd : (getActiveDate utcMin offset).1 =
      (if 1080 ≤ getUserMinutes utcMin offset
        then getDatePlusDays (getUserDate utcMin offset) 1
        else getUserDate utcMin offset) := by
    unfold getActiveDate getUserTomorrowDate
    by_cases hm : getUserMinutes utcMin offset ≥ 18 * 60
    · rw [if_pos hm, if_pos (by omega)]
    · rw [if_neg hm, if_neg (by omega)]
  constructor
  · intro t ht
    simp only [webhookSaveTasks, List.mem_map] at ht
    obtain ⟨p, _, rfl⟩ := ht
    simpa [freshTask] using hd
  · exact hd

/-- Witness for C10: at exactly 18:00 local (offset 0) the saved task
and the `/plan` default land on tomorrow (day 1). -/
theorem active_date_rule_witness :
    (freshTask 1 540 "Gym").taskDate = 1 ∧ planDefaultDate 1080 0 = 1 := by
  have h := active_date_rule 1080 0 [(540, "Gym")]
  refine ⟨?_, h.2.trans (by decide)⟩
  have hm := h.1 (freshTask 1 540 "Gym") (by decide)
  exact hm.trans (by decide)

end StrictBot
